import Mathlib

/-!
Verification of `dataproc/core/misc_graph.py` (procastro repository).

Shallow embedding of the module's plotting helpers:
* `imshowz` — image display with zscale contrast, windowing, rotation, cropping;
* `plot_accross` — cross-sectional slicing of an n-dimensional array;
* `prep_data_plot` — heterogeneous input normalization;
* `figaxes_xdate` — date-format selection for a time axis;
* `fill_between` — shaded-band helper;
* `set_plot_props` — decoration routine (the `vspan` / `ax_method` interaction).

Machine floats of the source are modelled as exact numbers (`Int` for pixel
coordinates and data values, `Rat` for time values); numpy arrays as explicit
structures.  The external collaborators (zscale, matplotlib rendering) are
parameters of the embedding; numpy primitives (`rot90`, slicing) are embedded
from their documented/actual semantics.
-/

/-! ### Image buffers (2-D numpy arrays)

A 2-D numeric array: `rows` × `cols`, entries looked up through a total
function that is 0 outside bounds (every operation below guards its reads,
so out-of-bounds entries are canonically 0). -/

structure Mat where
  rows : Nat
  cols : Nat
  entry : Nat → Nat → Int

/-- Build a matrix with canonical (guarded) out-of-bounds entries. -/
def mkMat (r c : Nat) (f : Nat → Nat → Int) : Mat :=
  ⟨r, c, fun i j => if i < r ∧ j < c then f i j else 0⟩

/-- numpy `flip(m, 1)` : reverse each row (flip along the column axis). -/
def fliplr (m : Mat) : Mat :=
  ⟨m.rows, m.cols, fun i j =>
    if i < m.rows ∧ j < m.cols then m.entry i (m.cols - 1 - j) else 0⟩

/-- numpy `flip(m, 0)` : reverse the rows (flip along the row axis). -/
def flipud (m : Mat) : Mat :=
  ⟨m.rows, m.cols, fun i j =>
    if i < m.rows ∧ j < m.cols then m.entry (m.rows - 1 - i) j else 0⟩

/-- numpy `transpose(m)`. -/
def npTranspose (m : Mat) : Mat :=
  ⟨m.cols, m.rows, fun i j =>
    if i < m.cols ∧ j < m.rows then m.entry j i else 0⟩

/-- One counter-clockwise quarter turn (numpy's `rot90(m, 1)`,
i.e. `transpose(flip(m, 1))`). -/
def quarterTurn (m : Mat) : Mat := npTranspose (fliplr m)

/-- `k` counter-clockwise quarter turns. -/
def rotN : Nat → Mat → Mat
  | 0, m => m
  | k + 1, m => quarterTurn (rotN k m)

/-- numpy `rot90(m, k)` for arbitrary integer `k`, following the numpy
implementation: `k %= 4` (Python modulo, hence in `[0,4)`) and then the
four cases `m`, `flip(flip(m,0),1)`, `transpose(flip(m,1))`,
`flip(transpose(m),1)`.  Lean's `Int.emod` agrees with Python `%` for the
positive divisor 4. -/
def np_rot90 (m : Mat) (k : Int) : Mat :=
  let k4 := k % 4
  if k4 = 0 then m
  else if k4 = 2 then flipud (fliplr m)
  else if k4 = 1 then npTranspose (fliplr m)
  else fliplr (npTranspose m)

theorem Mat.ext' {m n : Mat} (hr : m.rows = n.rows) (hc : m.cols = n.cols)
    (he : ∀ i j, m.entry i j = n.entry i j) : m = n := by
  cases m; cases n
  simp only [Mat.mk.injEq] at *
  exact ⟨hr, hc, funext fun i => funext fun j => he i j⟩

theorem quarterTurn_two (m : Mat) :
    quarterTurn (quarterTurn m) = flipud (fliplr m) := by
  refine Mat.ext' rfl rfl fun i j => ?_
  simp only [quarterTurn, npTranspose, fliplr, flipud]
  split_ifs <;>
    first
      | rfl
      | omega
      | (congr 2 <;> omega)
      | (congr 1 <;> omega)

theorem quarterTurn_three (m : Mat) :
    quarterTurn (quarterTurn (quarterTurn m)) = fliplr (npTranspose m) := by
  refine Mat.ext' rfl rfl fun i j => ?_
  simp only [quarterTurn, npTranspose, fliplr, flipud]
  split_ifs <;>
    first
      | rfl
      | omega
      | (congr 2 <;> omega)
      | (congr 1 <;> omega)

/-- numpy's `rot90` computes exactly `(k mod 4)` single quarter turns. -/
theorem np_rot90_eq_rotN (m : Mat) (k : Int) :
    np_rot90 m k = rotN (k % 4).toNat m := by
  have h0 : 0 ≤ k % 4 := Int.emod_nonneg k (by decide)
  have h4 : k % 4 < 4 := Int.emod_lt_of_pos k (by decide)
  unfold np_rot90
  have : k % 4 = 0 ∨ k % 4 = 1 ∨ k % 4 = 2 ∨ k % 4 = 3 := by omega
  rcases this with h | h | h | h <;> rw [h] <;> simp [rotN]
  · rfl
  · exact (quarterTurn_two m).symm
  · rw [show quarterTurn (quarterTurn (quarterTurn m)) =
        fliplr (npTranspose m) from quarterTurn_three m]

/-! ### `imshowz` — image display pipeline

Embeds the value-level computation of `imshowz` (misc_graph.py lines
298–381): the `extent`/`xlim`/`ylim` mutual-exclusion check, window
defaulting, rotation, center+radius windowing with clamping, optional data
trimming, contrast limits (the external `dp.zscale` collaborator is a
function parameter), render extent, and axis inversion.  Rendering,
colorbar, tick and interactive side effects have no value content and are
not modelled. -/

/-- Python slice-index normalization for a sequence of length `n`:
a negative index counts from the end (clamped at 0), a non-negative one is
clamped at `n`. -/
def sliceIdx (n : Nat) (a : Int) : Nat :=
  if a < 0 then (max 0 ((n : Int) + a)).toNat else min a.toNat n

/-- numpy 2-D sub-array `m[y0:y1, x0:x1]` with Python slice semantics. -/
def npSlice2 (m : Mat) (y0 y1 x0 x1 : Int) : Mat :=
  let ys := sliceIdx m.rows y0
  let ye := sliceIdx m.rows y1
  let xs := sliceIdx m.cols x0
  let xe := sliceIdx m.cols x1
  ⟨ye - ys, xe - xs, fun i j =>
    if i < ye - ys ∧ j < xe - xs then m.entry (ys + i) (xs + j) else 0⟩

/-- The center+radius windowing of `imshowz` (lines 324–334), for an image
of shape `(h, w)` = `(data.shape[0], data.shape[1])`.

* `border_distance = [w - cx, cx, h - cy, cy]`; a missing `plot_rad`
  defaults to its minimum;
* `xlim = [cx - r, cx + r]`, `ylim = [cy - r, cy + r]`;
* `xlim[0] *= xlim[0] > 0` — multiplication by a Python bool, i.e. a
  negative lower bound becomes 0;
* `xlim[1] = (xlim[1] > w) and w or xlim[1]` — the Python `and`/`or`
  idiom: value `w` when the bound exceeds `w` **and** `w` is truthy
  (non-zero), else the bound itself; likewise for `ylim`. -/
def cxyWindow (h w : Nat) (cx cy : Int) (plot_rad : Option Int) :
    (Int × Int) × (Int × Int) :=
  let wI : Int := w
  let hI : Int := h
  let r := plot_rad.getD (min (min (wI - cx) cx) (min (hI - cy) cy))
  let x0 := cx - r
  let x1 := cx + r
  let y0 := cy - r
  let y1 := cy + r
  let x0 := if x0 > 0 then x0 else 0
  let x1 := if x1 > wI ∧ wI ≠ 0 then wI else x1
  let y0 := if y0 > 0 then y0 else 0
  let y1 := if y1 > hI ∧ hI ≠ 0 then hI else y1
  ((x0, x1), (y0, y1))

/-- Optional keyword arguments of `imshowz` that take part in the modelled
computation (all default to the Python defaults). -/
structure ImArgs where
  minmax : Option (Int × Int) := none
  xlim : Option (Int × Int) := none
  ylim : Option (Int × Int) := none
  cxy : Option (Int × Int) := none
  plot_rad : Option Int := none
  rotate : Int := 0
  invertx : Bool := false
  inverty : Bool := false
  trim_data : Bool := false
  extent : Option (Int × Int × Int × Int) := none

/-- Value-level outcome of a successful `imshowz` call: the returned
contrast limits (`outs['lims']`), the window handed to `set_plot_props`,
the extent handed to `ax.imshow`, and the (rotated/trimmed) data that was
rendered and fed to `zscale`. -/
structure ImOuts where
  lims : Int × Int
  xlimOut : Int × Int
  ylimOut : Int × Int
  extentOut : Int × Int × Int × Int
  dataOut : Mat

/-- Error message of the `extent` + `xlim` + `ylim` conflict (line 308). -/
def conflictMsg : String :=
  "If extents is specified for imshowz, then xlim and ylim should not"

/-- Error message of the rotation check (line 320). -/
def rotateMsg : String := "rotate must be a multiple of 90"

/-- Pipeline tail of `imshowz` after the rotation step (lines 324–375):
center+radius windowing, trimming, contrast limits, extent, inversion.
`d` is the post-rotation data, `xlim`/`ylim` the already-defaulted window
(the defaults are taken from the *pre*-rotation shape, as in the source). -/
def imshowzPost (zscale : Mat → Int × Int) (d : Mat)
    (xlim ylim : Int × Int) (a : ImArgs) : ImOuts :=
  let (xlim, ylim) :=
    match a.cxy with
    | some (cx, cy) => cxyWindow d.rows d.cols cx cy a.plot_rad
    | none => (xlim, ylim)
  let (d, xlim, ylim) :=
    if a.trim_data then
      let d' := npSlice2 d ylim.1 ylim.2 xlim.1 xlim.2
      (d', ((0 : Int), (d'.cols : Int) - 1), ((0 : Int), (d'.rows : Int) - 1))
    else (d, xlim, ylim)
  let lims := match a.minmax with
    | some mm => mm
    | none => zscale d
  let extent := match a.extent with
    | some e => e
    | none => (xlim.1, xlim.2, ylim.1, ylim.2)
  let xlim := if a.invertx then (xlim.2, xlim.1) else xlim
  let ylim := if a.inverty then (ylim.2, ylim.1) else ylim
  ⟨lims, xlim, ylim, extent, d⟩

/-- The `imshowz` routine (lines 298–381).  `zscale` is the external
contrast-scaling collaborator `dp.zscale`. -/
def imshowz (zscale : Mat → Int × Int) (data : Mat) (a : ImArgs) :
    Except String ImOuts :=
  match a.extent, a.xlim, a.ylim with
  | some _, some _, some _ => .error conflictMsg
  | _, _, _ =>
    let xlim := match a.xlim with
      | some p => p
      | none => ((0 : Int), (data.cols : Int))
    let ylim := match a.ylim with
      | some p => p
      | none => ((0 : Int), (data.rows : Int))
    if a.rotate ≠ 0 then
      if a.rotate % 90 ≠ 0 then .error rotateMsg
      else .ok (imshowzPost zscale (np_rot90 data (a.rotate / 90)) xlim ylim a)
    else .ok (imshowzPost zscale data xlim ylim a)

/-! ### `figaxes_xdate` — date-format selection (lines 384–425)

Times are modelled as exact rationals, in units of days (matplotlib's
`plot_date` is an affine shift of Julian Day with slope one, so differences
of `plot_date` values equal differences of the JD inputs). -/

/-- The format-string ladder of `figaxes_xdate` (lines 413–422), applied to
the span `tdelta` in minutes. -/
def spanFmt (tdelta : Rat) : String :=
  if tdelta < 4 then "%H:%M:%S"
  else if tdelta < 8 * 60 then "%H:%M"
  else if tdelta < 5 * 60 * 24 then "%Y-%b-%d %H:%M"
  else if tdelta < 1 * 60 * 24 * 365 then "%Y %b"
  else "%Y"

/-- Format selection of `figaxes_xdate` on a numeric (JD) sequence:
`tdelta = (retx[-1] - retx[0]) * 24 * 60`, i.e. the *last minus first*
element in minutes (line 412), fed to the ladder.  `none` for an empty
sequence (on which the source's `retx[-1]` raises). -/
def figaxes_xdate_fmt (x : List Rat) : Option String :=
  match x with
  | [] => none
  | h :: t => some (spanFmt ((t.getLastD h - h) * 24 * 60))

/-- Modelled from the spec's words (§4.7), for refinement comparison only:
format selection from the span `max(x) - min(x)` in minutes. -/
def specXdateFmt (x : List Rat) : Option String :=
  match x with
  | [] => none
  | h :: t => some (spanFmt ((t.foldl max h - t.foldl min h) * 24 * 60))

/-! ### `fill_between` — shaded-band helper (lines 42–63)

`bottom` and `top` are each absent, a Python float scalar, or a sequence;
values are exact rationals.  The result of a successful call is the pair of
sequences actually filled between plus the secondary-scale y-limits
(`ax2.set_ylim`); `none` stands for the immediate no-op return. -/

inductive FillVal where
  | scalar : Rat → FillVal
  | seq : List Rat → FillVal
deriving DecidableEq

/-- `v * 0` on a float or numpy array. -/
def fvMulZero : FillVal → FillVal
  | .scalar _ => .scalar 0
  | .seq l => .seq (l.map fun _ => 0)

/-- Python `len`: a float has no length. -/
def fvLen : FillVal → Except String Nat
  | .scalar _ => .error "TypeError: object of type 'float' has no len()"
  | .seq l => .ok l.length

/-- Maximum of a numpy array / Python `max` of a sequence (error when
empty, as in the source). -/
def seqMax : List Rat → Except String Rat
  | [] => .error "ValueError: max() arg is an empty sequence"
  | h :: t => .ok (t.foldl max h)

/-- Minimum, as `seqMax`. -/
def seqMin : List Rat → Except String Rat
  | [] => .error "ValueError: min() arg is an empty sequence"
  | h :: t => .ok (t.foldl min h)

/-- The numeric content of `fill_between` (lines 42–63), mirroring the
source statement by statement:

* both `bottom` and `top` absent — immediate return (`.ok none`);
* `bottom` absent — `bottom = top * 0`;
* `top` absent — the source executes `top *= max(bottom)` with `top`
  still `None`, an unconditional `TypeError`;
* a float `top` is broadcast to `[top] * len(bottom)` and a float
  `bottom` to `[bottom] * len(top)`;
* the secondary scale gets
  `ylim = [min(bottom) - margin, max(top) + margin]` with
  `margin = 0.05 * (max(top) - min(bottom))`.

`fillCore` below is the broadcasting and secondary-scale computation once
both operands are present (lines 52–63); `fill_between` adds the
absent-operand handling in source order. -/
def fillCore (b t : FillVal) :
    Except String (Option (List Rat × List Rat × Rat × Rat)) := do
  let tl ← match t with
    | .scalar v => do
        let n ← fvLen b
        pure (List.replicate n v)
    | .seq l => pure l
  let bl ← match b with
    | .scalar v => pure (List.replicate tl.length v)
    | .seq l => pure l
  let tMax ← seqMax tl
  let bMin ← seqMin bl
  let margin := (5 : Rat) / 100 * (tMax - bMin)
  return some (bl, tl, bMin - margin, tMax + margin)

def fill_between (bottom top : Option FillVal) :
    Except String (Option (List Rat × List Rat × Rat × Rat)) :=
  match bottom, top with
  | none, none => .ok none
  | none, some t => fillCore (fvMulZero t) t
  | some _, none =>
      .error
        "TypeError: unsupported operand type(s) for *=: 'NoneType' and 'float'"
  | some b, some t => fillCore b t

/-! ### `set_plot_props` — the `vspan` / `ax_method` interaction (lines 75–83)

The `ax_method` dictionary maps a method name to its keyword-argument set;
for this claim only the identity of an entry matters, so keyword sets are
either the `vspan`-generated `{'xmin': a, 'xmax': b}` or an opaque
caller-supplied set. -/

inductive KWSet where
  | vspanKW : Int → Int → KWSet
  | caller : Nat → KWSet
deriving DecidableEq

/-- Python `d[k] = v` on an association list (replace or append). -/
def dictInsert (k : String) (v : KWSet) :
    List (String × KWSet) → List (String × KWSet)
  | [] => [(k, v)]
  | (k', v') :: rest =>
      if k' = k then (k, v) :: rest else (k', v') :: dictInsert k v rest

/-- Python `k in d.keys()`. -/
def dictContains (k : String) (m : List (String × KWSet)) : Bool :=
  m.any fun p => p.1 == k

/-- Python `d.get(k)` (first binding). -/
def dictLookup (k : String) : List (String × KWSet) → Option KWSet
  | [] => none
  | (k', v') :: rest => if k' = k then some v' else dictLookup k rest

/-- Lines 77–78 of `set_plot_props`:
`if vspan is not None and 'vspan' not in ax_method.keys():
    ax_method['axvspan'] = {'xmin': vspan[0], 'xmax': vspan[1]}`. -/
def applyVspan (vspan : Option (Int × Int))
    (ax_method : List (String × KWSet)) : List (String × KWSet) :=
  match vspan with
  | none => ax_method
  | some (a, b) =>
      if dictContains "vspan" ax_method then ax_method
      else dictInsert "axvspan" (.vspanKW a b) ax_method

/-! ### `prep_data_plot` — data extractor (lines 191–232)

The four recognized input shapes; array contents are irrelevant to the
extractor, so an array is a flat list of values and `Option` marks a
`.data` / `reader()` result that is `None`.  The `AstroFile` collaborator
is modelled by its two observable outcomes: truthiness of the constructed
object and the reader's result. -/

inductive InData where
  /-- A `_BaseHDU` whose `.data` may be absent. -/
  | baseHDU : Option (List Int) → InData
  /-- An `HDUList`: one optional data block per HDU. -/
  | hduList : List (Option (List Int)) → InData
  /-- A raw numpy array. -/
  | ndarray : List Int → InData
  /-- Anything else, routed through `dp.AstroFile(indata)`: its display
  string, the truthiness of the `AstroFile`, and the reader's result. -/
  | astro : String → Bool → Option (List Int) → InData

/-- Python `"{0:s}".format(indata)` on the raw input object: the `:s`
format spec succeeds only on a `str` (the `.astro` case, whose input *is*
the string identifier); on any other object it invokes
`object.__format__`, which rejects the non-empty spec with a
`TypeError` — it does **not** fall back to `str(indata)`. -/
def pyFormatS : InData → Except String String
  | .astro s _ _ => .ok s
  | _ =>
      .error "TypeError: unsupported format string passed to the object's __format__"

/-- `prep_data_plot` (lines 191–232): resolve `data` and the optional
`error_msg` exactly as the source's branches do, then apply the single
`data is None` check.  `hdu` is the keyword argument (default 0).

`noneCheck` is the final `data is None` check shared by all branches
(lines 227–230): when `error_msg` was never set it defaults to the raw
input object itself, which the `"{0:s}"` formatting then either renders
(a `str` input) or chokes on (any other object — `pyFormatS`). -/
def noneCheck (indata : InData) (data : Option (List Int))
    (error_msg : Option String) : Except String (List Int) :=
  match data with
  | some d => .ok d
  | none =>
      match error_msg with
      | some m => .error ("Nothing to plot " ++ m)
      | none =>
          match pyFormatS indata with
          | .ok s => .error ("Nothing to plot " ++ s)
          | .error e => .error e

def prep_data_plot (indata : InData) (hdu : Nat := 0) :
    Except String (List Int) :=
  match indata with
  | .baseHDU d => noneCheck indata d none
  | .hduList items =>
      match items.get? hdu with
      | none => .error "IndexError: list index out of range"
      | some d =>
          noneCheck indata d (some ("for HDU " ++ toString hdu ++ ".\n"))
  | .ndarray a => noneCheck indata (some a) none
  | .astro _ ok rd =>
      if ok then noneCheck indata rd none
      else .error "Unrecognized type for input data: str"

/-! ### `plot_accross` — n-dimensional cross-section (lines 119–188)

An n-dimensional numpy array is a nested structure of scalars; `shape`
follows numpy's shape of a nested list, and `extract` implements indexing
by a tuple whose entries are either an integer or the full slice
`slice(None, None)` (`none` here). -/

inductive ND where
  | scalar : Int → ND
  | arr : List ND → ND

/-- numpy shape of a (well-formed) nested array. -/
def ndShape : ND → List Nat
  | .scalar _ => []
  | .arr [] => [0]
  | .arr (x :: xs) => (xs.length + 1) :: ndShape x

mutual
/-- `x` is a well-formed array of the given shape (rectangular, every
branch the same depth). -/
def hasShape : ND → List Nat → Bool
  | .scalar _, s => s.isEmpty
  | .arr _, [] => false
  | .arr l, d :: ds => l.length == d && allShape l ds
def allShape : List ND → List Nat → Bool
  | [], _ => true
  | x :: xs, ds => hasShape x ds && allShape xs ds
end

mutual
/-- numpy indexing `x[pos]` where `pos` is a tuple of integers and full
slices (`none`); `none` entries keep the axis, integer entries select
along it.  Out-of-range indices and indexing into a scalar give `none`
(an `IndexError` in the source). -/
def extract : ND → List (Option Nat) → Option ND
  | x, [] => some x
  | .scalar _, _ :: _ => none
  | .arr l, some i :: rest => extractAt l i rest
  | .arr l, none :: rest =>
      match extractAll l rest with
      | some ys => some (.arr ys)
      | none => none
def extractAt : List ND → Nat → List (Option Nat) → Option ND
  | [], _, _ => none
  | x :: _, 0, rest => extract x rest
  | _ :: xs, i + 1, rest => extractAt xs i rest
def extractAll : List ND → List (Option Nat) → Option (List ND)
  | [], _ => some []
  | x :: xs, rest =>
      match extract x rest, extractAll xs rest with
      | some y, some ys => some (y :: ys)
      | _, _ => none
end

/-- The position specification accepted by `plot_accross`: a scalar or an
explicit sequence whose entries are `None` (free axis) or an index. -/
inductive PosSpec where
  | scalar : Nat → PosSpec
  | explicit : List (Option Nat) → PosSpec

/-- Position normalization (line 168–169): a scalar `pos` becomes
`[None] + [0]*(ndim-2) + [pos]`; an explicit sequence is kept. -/
def normPos (p : PosSpec) (ndim : Nat) : List (Option Nat) :=
  match p with
  | .scalar k => none :: (List.replicate (ndim - 2) (some 0) ++ [some k])
  | .explicit l => l

/-- The mismatch message of lines 171–173 (`"{0:d}"`-formatted sizes). -/
def posMismatchMsg (posLen ndim : Nat) : String :=
  "pos (size: " ++ toString posLen ++
    ") must have the same size as data array dimension (" ++
    toString ndim ++ ")"

/-- The slicing core of `plot_accross` (lines 165–188): normalize `pos`,
check its length against the data's dimensionality, extract the
cross-section, and return it together with the prepared data.  Plot
decoration has no value content; an out-of-range index is numpy's
`IndexError`. -/
def plot_accross (data : ND) (pos : PosSpec) : Except String (ND × ND) :=
  let ndim := (ndShape data).length
  let p := normPos pos ndim
  if p.length ≠ ndim then
    .error (posMismatchMsg p.length ndim)
  else
    match extract data p with
    | some acc => .ok (acc, data)
    | none => .error "IndexError: index out of bounds"

/-! ### Concrete instances used by witnesses and counterexamples -/

/-- A concrete stand-in for the external zscale collaborator. -/
def zsW : Mat → Int × Int := fun _ => (7, 42)

/-- A concrete 100 × 200 image. -/
def matW : Mat := mkMat 100 200 fun i j => (i : Int) + j

/-- A concrete 3-D array of shape (5, 4, 10):
`exND[i][j][k] = 100*i + 10*j + k`. -/
def exND : ND :=
  .arr ((List.range 5).map fun i =>
    .arr ((List.range 4).map fun j =>
      .arr ((List.range 10).map fun k =>
        .scalar (100 * (i : Int) + 10 * j + k))))

/-! ### Supporting lemmas -/

/-- `imshowzPost` never reads the `rotate` field. -/
theorem imshowzPost_rotate_irrel (zs : Mat → Int × Int) (d : Mat)
    (xl yl : Int × Int) (a : ImArgs) (r : Int) :
    imshowzPost zs d xl yl { a with rotate := r } = imshowzPost zs d xl yl a :=
  rfl

/-- Bounds of the clamped center+radius window when the center is strictly
inside the image and the radius is positive or defaulted. -/
theorem cxyWindow_bounds (h w : Nat) (cx cy : Int) (r? : Option Int)
    (hx0 : 0 < cx) (hx1 : cx < (w : Int))
    (hy0 : 0 < cy) (hy1 : cy < (h : Int))
    (hrad : ∀ r, r? = some r → 0 < r) :
    0 ≤ (cxyWindow h w cx cy r?).1.1 ∧
    (cxyWindow h w cx cy r?).1.1 < (cxyWindow h w cx cy r?).1.2 ∧
    (cxyWindow h w cx cy r?).1.2 ≤ (w : Int) ∧
    0 ≤ (cxyWindow h w cx cy r?).2.1 ∧
    (cxyWindow h w cx cy r?).2.1 < (cxyWindow h w cx cy r?).2.2 ∧
    (cxyWindow h w cx cy r?).2.2 ≤ (h : Int) := by
  rcases r? with _ | r
  · simp only [cxyWindow, Option.getD, min_def]
    split_ifs <;> omega
  · have hr : 0 < r := hrad r rfl
    simp only [cxyWindow, Option.getD, min_def]
    split_ifs <;> omega

/-! ### Claim theorems -/

/-- C7: supplying an explicit `extent` together with both `xlim` and
`ylim` always fails with the `ConflictingExtent` error, while any call
missing at least one of the three never produces that error. -/
theorem imshowz_conflicting_extent (zs : Mat → Int × Int) (d : Mat)
    (a : ImArgs) :
    (a.extent ≠ none → a.xlim ≠ none → a.ylim ≠ none →
      imshowz zs d a = .error conflictMsg) ∧
    (a.extent = none ∨ a.xlim = none ∨ a.ylim = none →
      imshowz zs d a ≠ .error conflictMsg) := by
  have hmsg : rotateMsg ≠ conflictMsg := by decide
  constructor
  · intro he hx hy
    rcases he' : a.extent with _ | e
    · exact absurd he' he
    rcases hx' : a.xlim with _ | x
    · exact absurd hx' hx
    rcases hy' : a.ylim with _ | y
    · exact absurd hy' hy
    simp [imshowz, he', hx', hy']
  · intro h
    rcases he' : a.extent with _ | e <;>
      rcases hx' : a.xlim with _ | x <;>
      rcases hy' : a.ylim with _ | y <;>
      simp [he', hx', hy'] at h <;>
      simp [imshowz, he', hx', hy'] <;>
      split_ifs <;>
      simp [hmsg]

/-- Witness for C7: a concrete call with `extent`, `xlim` and `ylim` all
supplied fails with the conflict error, and one with `extent` alone does
not. -/
theorem imshowz_conflicting_extent_witness :
    imshowz zsW matW
      { extent := some (0, 1, 0, 1), xlim := some (0, 1), ylim := some (0, 1) }
      = .error conflictMsg ∧
    imshowz zsW matW { extent := some (0, 1, 0, 1) } ≠ .error conflictMsg :=
  ⟨(imshowz_conflicting_extent zsW matW _).1 (by decide) (by decide) (by decide),
   (imshowz_conflicting_extent zsW matW _).2 (by decide)⟩

/-- C9: with no optional parameters, the routine's contrast limits are the
external zscale collaborator's output on the unmodified array, and the
window defaults to the full data extent — `[0, 200]` × `[0, 100]` for a
100 × 200 array. -/
theorem imshowz_defaults (zs : Mat → Int × Int) (d : Mat)
    (hr : d.rows = 100) (hc : d.cols = 200) :
    imshowz zs d {} =
      .ok ⟨zs d, (0, 200), (0, 100), (0, 200, 0, 100), d⟩ := by
  simp [imshowz, imshowzPost, hr, hc]

/-- Witness for C9 at a concrete 100 × 200 array and a concrete zscale. -/
theorem imshowz_defaults_witness :
    matW.rows = 100 ∧ matW.cols = 200 ∧
    imshowz zsW matW {} =
      .ok ⟨zsW matW, (0, 200), (0, 100), (0, 200, 0, 100), matW⟩ :=
  ⟨rfl, rfl, imshowz_defaults zsW matW rfl rfl⟩

/-- C1 counterexample: a call with center `(0, 0)` and defaulted radius
(the minimum border distance, here 0) yields the window `[0, 0] × [0, 0]`,
violating `x_min < x_max` — the claimed bounds do not hold for every
center and radius. -/
theorem imshowz_cxy_counterexample :
    (imshowz zsW matW { cxy := some (0, 0) }).map ImOuts.xlimOut
        = .ok (0, 0) ∧
    (imshowz zsW matW { cxy := some (0, 0) }).map ImOuts.ylimOut
        = .ok (0, 0) ∧
    ¬ ((0 : Int) < 0) :=
  ⟨rfl, rfl, by decide⟩

/-- C1 (amended): for a call whose center is strictly inside the data and
whose radius is positive or defaulted (and whose window is not
subsequently trimmed, inverted, or taken on rotated data), the resulting
view window satisfies `0 ≤ x_min < x_max ≤ width` and
`0 ≤ y_min < y_max ≤ height`. -/
theorem imshowz_cxy_window_bounds (zs : Mat → Int × Int) (d : Mat)
    (a : ImArgs) (cx cy : Int)
    (hcxy : a.cxy = some (cx, cy))
    (hrot : a.rotate = 0) (htrim : a.trim_data = false)
    (hix : a.invertx = false) (hiy : a.inverty = false)
    (hext : a.extent = none)
    (hx0 : 0 < cx) (hx1 : cx < (d.cols : Int))
    (hy0 : 0 < cy) (hy1 : cy < (d.rows : Int))
    (hrad : ∀ r, a.plot_rad = some r → 0 < r) :
    ∃ o, imshowz zs d a = .ok o ∧
      0 ≤ o.xlimOut.1 ∧ o.xlimOut.1 < o.xlimOut.2 ∧
      o.xlimOut.2 ≤ (d.cols : Int) ∧
      0 ≤ o.ylimOut.1 ∧ o.ylimOut.1 < o.ylimOut.2 ∧
      o.ylimOut.2 ≤ (d.rows : Int) := by
  have hb := cxyWindow_bounds d.rows d.cols cx cy a.plot_rad hx0 hx1 hy0 hy1 hrad
  rcases hcw : cxyWindow d.rows d.cols cx cy a.plot_rad with ⟨⟨x0, x1⟩, y0, y1⟩
  rw [hcw] at hb
  simp only [Prod.fst, Prod.snd] at hb
  rcases hx' : a.xlim with _ | xl <;> rcases hy' : a.ylim with _ | yl <;>
    simp [imshowz, imshowzPost, hext, hx', hy', hrot, htrim, hix, hiy,
      hcxy, hcw] <;>
    omega

/-- Witness for C1 (amended), at center (50, 60) with defaulted radius on
the concrete 100 × 200 image. -/
theorem imshowz_cxy_window_bounds_witness :
    ∃ o, imshowz zsW matW { cxy := some (50, 60) } = .ok o ∧
      0 ≤ o.xlimOut.1 ∧ o.xlimOut.1 < o.xlimOut.2 ∧
      o.xlimOut.2 ≤ (matW.cols : Int) ∧
      0 ≤ o.ylimOut.1 ∧ o.ylimOut.1 < o.ylimOut.2 ∧
      o.ylimOut.2 ≤ (matW.rows : Int) :=
  imshowz_cxy_window_bounds zsW matW { cxy := some (50, 60) } 50 60
    rfl rfl rfl rfl rfl rfl (by decide) (by decide) (by decide) (by decide)
    (fun r hr => by simp at hr)

/-- C2: a rotation that is not a multiple of 90 makes the routine fail
with the `InvalidRotation` error (whenever the call reaches the rotation
check, i.e. is not already rejected by the extent conflict); a rotation
that is a multiple of 90 succeeds for *every* call, and the whole call
equals the post-rotation pipeline (`imshowzPost`: center+radius
windowing, trimming, contrast limits, extent, inversion — everything
after line 321) run on the data pre-rotated by exactly
`(rotate/90 mod 4)` counter-clockwise quarter turns: rotation is applied
to the data before any cropping or windowing.  The window defaults,
which the source computes *before* rotating (lines 312–315, the
`# TODO: update x0, x1, y0, y1` quirk), appear explicitly as
`(0, d.cols) × (0, d.rows)` of the *pre*-rotation shape.  The third
conjunct isolates the data fact: without trimming, the displayed data is
exactly the `(rotate/90 mod 4)`-quarter-turn rotation of the input. -/
theorem imshowz_rotation (zs : Mat → Int × Int) (d : Mat) (a : ImArgs)
    (r : Int) :
    (r % 90 ≠ 0 → ¬(a.extent ≠ none ∧ a.xlim ≠ none ∧ a.ylim ≠ none) →
      imshowz zs d { a with rotate := r } = .error rotateMsg) ∧
    (r % 90 = 0 → ¬(a.extent ≠ none ∧ a.xlim ≠ none ∧ a.ylim ≠ none) →
      imshowz zs d { a with rotate := r } =
        .ok (imshowzPost zs (rotN ((r / 90) % 4).toNat d)
          (match a.xlim with
           | some p => p
           | none => ((0 : Int), (d.cols : Int)))
          (match a.ylim with
           | some p => p
           | none => ((0 : Int), (d.rows : Int)))
          { a with rotate := r })) ∧
    (r % 90 = 0 → ¬(a.extent ≠ none ∧ a.xlim ≠ none ∧ a.ylim ≠ none) →
      a.trim_data = false →
      (imshowz zs d { a with rotate := r }).map ImOuts.dataOut =
        .ok (rotN ((r / 90) % 4).toNat d)) := by
  have hmain : r % 90 = 0 →
      ¬(a.extent ≠ none ∧ a.xlim ≠ none ∧ a.ylim ≠ none) →
      imshowz zs d { a with rotate := r } =
        .ok (imshowzPost zs (rotN ((r / 90) % 4).toNat d)
          (match a.xlim with
           | some p => p
           | none => ((0 : Int), (d.cols : Int)))
          (match a.ylim with
           | some p => p
           | none => ((0 : Int), (d.rows : Int)))
          { a with rotate := r }) := by
    intro hr hc
    rcases he' : a.extent with _ | e
    · rcases hx' : a.xlim with _ | x <;>
        rcases hy' : a.ylim with _ | y <;>
        rcases eq_or_ne r 0 with hr0 | hr0 <;>
        simp [imshowz, he', hx', hy', hr0, hr, np_rot90_eq_rotN, rotN] <;>
        rfl
    · rcases hx' : a.xlim with _ | x
      · rcases hy' : a.ylim with _ | y <;>
          rcases eq_or_ne r 0 with hr0 | hr0 <;>
          simp [imshowz, he', hx', hy', hr0, hr, np_rot90_eq_rotN, rotN] <;>
          rfl
      · rcases hy' : a.ylim with _ | y
        · rcases eq_or_ne r 0 with hr0 | hr0 <;>
            simp [imshowz, he', hx', hy', hr0, hr, np_rot90_eq_rotN, rotN] <;>
            rfl
        · exact absurd ⟨by simp [he'], by simp [hx'], by simp [hy']⟩ hc
  refine ⟨?_, hmain, ?_⟩
  · intro hr hc
    have hr0 : r ≠ 0 := fun h => hr (by simp [h])
    rcases he' : a.extent with _ | e <;>
      rcases hx' : a.xlim with _ | x <;>
      rcases hy' : a.ylim with _ | y <;>
      simp [imshowz, he', hx', hy', hr0, hr]
    exact absurd ⟨by simp [he'], by simp [hx'], by simp [hy']⟩ hc
  · intro hr hc htrim
    rw [hmain hr hc]
    rcases hcxy' : a.cxy with _ | ⟨cx, cy⟩ <;>
      simp [imshowzPost, htrim, hcxy', Except.map]

/-- Witness for C2: a concrete call with rotation 45 and a fully
defaulted window fails with the rotation error; one with rotation 90 and
a fully defaulted window on the 100 × 200 image equals the post-rotation
pipeline on the once-rotated data with the pre-rotation default window
`(0, 200) × (0, 100)`, and its displayed data is exactly that one
quarter turn of the input. -/
theorem imshowz_rotation_witness :
    imshowz zsW matW { rotate := 45 } = .error rotateMsg ∧
    imshowz zsW matW { rotate := 90 } =
      .ok (imshowzPost zsW (rotN (((90 : Int) / 90) % 4).toNat matW)
        (0, 200) (0, 100) { rotate := 90 }) ∧
    (imshowz zsW matW { rotate := 90 }).map ImOuts.dataOut =
      .ok (rotN (((90 : Int) / 90) % 4).toNat matW) :=
  ⟨(imshowz_rotation zsW matW {} 45).1 (by decide) (by simp),
   (imshowz_rotation zsW matW {} 90).2.1 (by decide) (by simp),
   (imshowz_rotation zsW matW {} 90).2.2 (by decide) (by simp) rfl⟩

/-- On a sorted list, folding `min` from the head gives the head. -/
theorem foldl_min_sorted : ∀ (h : Rat) (t : List Rat),
    (h :: t).Sorted (· ≤ ·) → t.foldl min h = h := by
  intro h t
  induction t generalizing h with
  | nil => intro _; rfl
  | cons a t' ih =>
      intro hs
      rw [List.sorted_cons] at hs
      have hha : h ≤ a := hs.1 a (by simp)
      have hs' : (h :: t').Sorted (· ≤ ·) := by
        rw [List.sorted_cons]
        rw [List.sorted_cons] at hs
        exact ⟨fun b hb => hs.1 b (by simp [hb]), hs.2.2⟩
      calc (a :: t').foldl min h = t'.foldl min (min h a) := rfl
        _ = t'.foldl min h := by rw [min_eq_left hha]
        _ = h := ih h hs'

/-- On a sorted list, folding `max` from the head gives the last element. -/
theorem foldl_max_sorted : ∀ (h : Rat) (t : List Rat),
    (h :: t).Sorted (· ≤ ·) → t.foldl max h = t.getLastD h := by
  intro h t
  induction t generalizing h with
  | nil => intro _; rfl
  | cons a t' ih =>
      intro hs
      rw [List.sorted_cons] at hs
      have hha : h ≤ a := hs.1 a (by simp)
      calc (a :: t').foldl max h = t'.foldl max (max h a) := rfl
        _ = t'.foldl max a := by rw [max_eq_right hha]
        _ = t'.getLastD a := ih a hs.2
        _ = (a :: t').getLastD h := by
              cases t' <;> simp [List.getLastD]

/-- C3 counterexample: on the (unsorted) two-element JD sequence `[2, 1]`
the source computes the span from last minus first — here negative — and
picks the hour:minute:second tier, while the claimed `max(x) - min(x)`
span (one day) would pick the year-month-day hour:minute tier. -/
theorem figaxes_xdate_span_counterexample :
    figaxes_xdate_fmt [2, 1] = some "%H:%M:%S" ∧
    specXdateFmt [2, 1] = some "%Y-%b-%d %H:%M" ∧
    figaxes_xdate_fmt [2, 1] ≠ specXdateFmt [2, 1] := by
  refine ⟨?_, ?_, ?_⟩ <;>
    norm_num [figaxes_xdate_fmt, specXdateFmt, spanFmt,
      List.getLastD, List.foldl] <;>
    decide

/-- C3 (amended): the tier ladder is selected from the span
`(last(x) - first(x)) * 24 * 60` minutes — which equals the claimed
`max(x) - min(x)` span exactly when the sequence is sorted ascending — and
every tier boundary is exclusive on the lower tier: spans of exactly
4 minutes, 8 hours, 5 days and 1 year fall in the next tier up. -/
theorem figaxes_xdate_fmt_sorted (x : List Rat) (h : Rat) (t : List Rat)
    (hx : x = h :: t) (hs : x.Sorted (· ≤ ·)) :
    figaxes_xdate_fmt x = specXdateFmt x ∧
    spanFmt 4 = "%H:%M" ∧
    spanFmt (8 * 60) = "%Y-%b-%d %H:%M" ∧
    spanFmt (5 * 60 * 24) = "%Y %b" ∧
    spanFmt (1 * 60 * 24 * 365) = "%Y" := by
  subst hx
  refine ⟨?_, ?_, ?_, ?_, ?_⟩
  · simp only [figaxes_xdate_fmt, specXdateFmt,
      foldl_min_sorted h t hs, foldl_max_sorted h t hs]
  · norm_num [spanFmt]
  · norm_num [spanFmt]
  · norm_num [spanFmt]
  · norm_num [spanFmt]

/-- Witness for C3 (amended) on the concrete sorted sequence `[1, 2]`. -/
theorem figaxes_xdate_fmt_sorted_witness :
    figaxes_xdate_fmt [1, 2] = specXdateFmt [1, 2] ∧
    spanFmt 4 = "%H:%M" ∧
    spanFmt (8 * 60) = "%Y-%b-%d %H:%M" ∧
    spanFmt (5 * 60 * 24) = "%Y %b" ∧
    spanFmt (1 * 60 * 24 * 365) = "%Y" :=
  figaxes_xdate_fmt_sorted [1, 2] 1 [2] rfl
    (by simp [List.sorted_cons])

/-- C4 (code bug): with `bottom` supplied and `top` omitted, the source
reaches `top *= max(bottom)` while `top` is still `None`, which raises an
unconditional `TypeError` instead of treating `top` as `bottom`'s maximum
broadcast across the sequence.  The other branches behave as claimed:
both omitted is a no-op, an omitted `bottom` becomes all-zero, scalars
broadcast, and the secondary-scale limits add a 5% margin of the band's
value range. -/
theorem fill_between_top_none_crash :
    fill_between (some (.seq [1, 2])) none =
      .error
        "TypeError: unsupported operand type(s) for *=: 'NoneType' and 'float'" ∧
    fill_between none none = .ok none ∧
    fill_between none (some (.seq [3, 4])) =
      .ok (some ([0, 0], [3, 4], 0 - 5 / 100 * 4, 4 + 5 / 100 * 4)) ∧
    fill_between (some (.scalar 1)) (some (.seq [3, 4])) =
      .ok (some ([1, 1], [3, 4], 1 - 5 / 100 * 3, 4 + 5 / 100 * 3)) := by
  refine ⟨rfl, rfl, ?_, ?_⟩ <;>
    norm_num [fill_between, fillCore, fvMulZero, seqMax, seqMin, pure,
      Except.pure, bind, Except.bind, max_def, min_def, List.replicate]

/-- C8 counterexample: with `vspan` supplied and a caller-supplied
`ax_method['axvspan']` entry, the source checks only the key `'vspan'`
and therefore *overwrites* the caller's explicit span entry, contradicting
the claim that it is kept. -/
theorem vspan_overwrite_counterexample :
    applyVspan (some (1, 2)) [("axvspan", .caller 0)] =
      [("axvspan", .vspanKW 1 2)] ∧
    KWSet.vspanKW 1 2 ≠ KWSet.caller 0 :=
  ⟨rfl, by decide⟩

/-- Lookup after insert-or-replace finds the inserted value. -/
theorem dictLookup_dictInsert (k : String) (v : KWSet) :
    ∀ m, dictLookup k (dictInsert k v m) = some v := by
  intro m
  induction m with
  | nil => simp [dictInsert, dictLookup]
  | cons p rest ih =>
      by_cases hk : p.1 = k <;>
        simp [dictInsert, dictLookup, hk, ih]

/-- C8 (amended): the `vspan` shorthand is skipped exactly when the caller
already supplied an entry under the key `'vspan'`; otherwise — including
when the caller supplied an explicit `'axvspan'` entry — the routine
writes `ax_method['axvspan']` with the vspan bounds, overwriting any
caller entry under that key. -/
theorem applyVspan_spec (m : List (String × KWSet)) (a b : Int) :
    applyVspan none m = m ∧
    (dictContains "vspan" m = true → applyVspan (some (a, b)) m = m) ∧
    (dictContains "vspan" m = false →
      dictLookup "axvspan" (applyVspan (some (a, b)) m) =
        some (.vspanKW a b)) := by
  refine ⟨rfl, ?_, ?_⟩
  · intro hc
    simp [applyVspan, hc]
  · intro hc
    simp [applyVspan, hc, dictLookup_dictInsert]

/-- Witness for C8 (amended): concrete instances of both branches. -/
theorem applyVspan_spec_witness :
    (dictContains "vspan" [("axvspan", KWSet.caller 0)] = false →
      dictLookup "axvspan"
          (applyVspan (some (1, 2)) [("axvspan", KWSet.caller 0)]) =
        some (.vspanKW 1 2)) ∧
    (dictContains "vspan" [("vspan", KWSet.caller 3)] = true →
      applyVspan (some (1, 2)) [("vspan", KWSet.caller 3)] =
        [("vspan", KWSet.caller 3)]) ∧
    dictContains "vspan" [("axvspan", KWSet.caller 0)] = false ∧
    dictContains "vspan" [("vspan", KWSet.caller 3)] = true :=
  ⟨(applyVspan_spec [("axvspan", KWSet.caller 0)] 1 2).2.2,
   (applyVspan_spec [("vspan", KWSet.caller 3)] 1 2).2.1,
   by decide, by decide⟩

/-- C10 counterexample: an *empty* (but present) resolved array does not
fail — `prep_data_plot` checks only `data is None`, so an empty numpy
array is returned as-is, contradicting the claim that empty arrays fail
with `NoData`. -/
theorem prep_data_plot_empty_ok :
    prep_data_plot (.ndarray []) 0 = .ok [] := rfl

/-- C10 (amended): whenever the *resolved array is absent* (`None`), the
extractor errors: with the "Nothing to plot" message carrying the
selector index when the input was an HDU collection, and carrying the raw
identifier when the input was a string identifier; for a bare HDU whose
`.data` is absent, the `"{0:s}"` formatting of the raw input object
itself raises a `TypeError` before any NoData message is produced.  An
empty-but-present array is returned without error. -/
theorem prep_data_plot_none (items : List (Option (List Int))) (hdu : Nat)
    (s : String) :
    (items.get? hdu = some none →
      prep_data_plot (.hduList items) hdu =
        .error ("Nothing to plot for HDU " ++ toString hdu ++ ".\n")) ∧
    prep_data_plot (.astro s true none) hdu =
      .error ("Nothing to plot " ++ s) ∧
    prep_data_plot (.baseHDU none) hdu =
      .error
        "TypeError: unsupported format string passed to the object's __format__" := by
  refine ⟨?_, rfl, rfl⟩
  intro hi
  simp only [prep_data_plot, noneCheck, hi, ← String.append_assoc]
  rfl

/-- Witness for C10 (amended) at concrete inputs. -/
theorem prep_data_plot_none_witness :
    [some [1], none].get? 1 = some none ∧
    prep_data_plot (.hduList [some [1], none]) 1 =
      .error ("Nothing to plot for HDU " ++ toString 1 ++ ".\n") :=
  ⟨rfl, (prep_data_plot_none [some [1], none] 1 "x").1 rfl⟩

/-- C6: for a scalar `pos` on data of dimensionality ≥ 2 (the invariant
of these routines), the expanded position sequence
`[None] + [0]*(ndim-2) + [pos]` has length equal to the data's
dimensionality; an explicit position sequence of any other length makes
the routine fail with the `DimensionMismatch` error reporting both
lengths. -/
theorem plot_accross_pos_norm (data : ND) (k : Nat) (l : List (Option Nat)) :
    (2 ≤ (ndShape data).length →
      (normPos (.scalar k) (ndShape data).length).length =
        (ndShape data).length) ∧
    (l.length ≠ (ndShape data).length →
      plot_accross data (.explicit l) =
        .error (posMismatchMsg l.length (ndShape data).length)) := by
  constructor
  · intro h2
    simp [normPos]
    omega
  · intro hne
    simp [plot_accross, normPos, hne]

/-- Witness for C6 on the concrete (5, 4, 10) array. -/
theorem plot_accross_pos_norm_witness :
    2 ≤ (ndShape exND).length ∧
    (normPos (.scalar 3) (ndShape exND).length).length =
      (ndShape exND).length ∧
    ([some 1] : List (Option Nat)).length ≠ (ndShape exND).length ∧
    plot_accross exND (.explicit [some 1]) =
      .error (posMismatchMsg 1 (ndShape exND).length) :=
  ⟨by decide,
   (plot_accross_pos_norm exND 3 [some 1]).1 (by decide),
   by decide,
   (plot_accross_pos_norm exND 3 [some 1]).2 (by decide)⟩

